import Mathlib

/-!
Shallow embedding of `joerocklin/go-selfupdate` (package `selfupdate`,
files `selfupdate.go` and the mock-requester file) in Lean 4, together
with theorems settling the spec claims about it.

Modelling conventions:
* Go errors are the inductive `GoError`; a `nil` error is `none : Option GoError`.
* External collaborators (the HTTP fetch capability, `encoding/json`
  decoding, and the go-update `FromUrl` patch-and-replace capability)
  are out of scope per the spec and are modelled as an oracle `World`
  that supplies their outcomes per URL.
* Side effects on the receiver (`u.Info`, `u.Requester`) are explicit
  state passing; network/patch requests are recorded in an event trace.
* Machine integers do not occur on the modelled paths; times and
  durations are `Nat` nanoseconds as in Go's `time` package.
-/

namespace Selfupdate

/-- Go struct literal decoded from the manifest JSON:
`struct { Version string; Sha256 []byte }` (the `Info` field of `Updater`).
Bytes are `Nat`s below 256; only the length is inspected by the code. -/
structure Info where
  Version : String
  Sha256 : List Nat
deriving DecidableEq, Repr

/-- The `Requester` interface value held in `Updater.Requester`.
`HTTPRequester` is the default implementation installed by `fetch`
when the field is nil; `custom` stands for any caller-supplied
implementation such as the repository's `mockRequester`. -/
inductive RequesterImpl where
  | HTTPRequester
  | custom (name : String)
deriving DecidableEq, Repr

/-- The `Updater` struct of `selfupdate.go`. An interface field that can
be nil in Go is an `Option`.  The `Logger` interface (`logInterface`)
only exposes `Println`, so its value carries no observable data. -/
structure Updater where
  CurrentVersion : String
  ApiURL : String
  CmdName : String
  BinURL : String
  DiffURL : String
  Dir : String
  Requester : Option RequesterImpl
  Info : Info
  Logger : Option Unit
deriving DecidableEq, Repr

/-- A successfully returned response body.  `jsonInfo i` is a body that
`json.NewDecoder(r).Decode(&u.Info)` decodes into `i`; `malformed m`
is a body on which the decoder fails with error text `m`. -/
inductive Body where
  | jsonInfo (i : Info)
  | malformed (msg : String)
deriving DecidableEq, Repr

/-- Outcome of `Requester.Fetch(url)`: an error, the contract-violating
`(nil, nil)` pair, or a readable body. -/
inductive FetchResult where
  | fetchErr (msg : String)
  | nilStream
  | stream (s : Body)
deriving DecidableEq, Repr

/-- go-update patch types used by `Update()`:
`update.PATCHTYPE_BSDIFF` for the patch attempt and
`update.PATCHTYPE_NONE` for the full-binary fallback. -/
inductive PatchType where
  | BSDIFF
  | NONE
deriving DecidableEq, Repr

/-- Observable external requests made during a run: a `Requester.Fetch`
call and a go-update `FromUrl` invocation (which downloads the URL and
applies it in the given patch mode). -/
inductive Event where
  | fetched (url : String)
  | fromUrlReq (pt : PatchType) (url : String)
deriving DecidableEq, Repr

/-- Go errors produced on the modelled paths.  `errMsg s` is an opaque
error whose `Error()` text is `s` (this covers transport errors, JSON
decode errors, the non-nil-ReadCloser contract error, and errors
returned by go-update); `invalidHashLength` is `ErrInvalidHashLength`;
`updateAndRecovery e er` is
`fmt.Errorf("update and recovery errors: %q %q", err, errRecover)`. -/
inductive GoError where
  | errMsg (s : String)
  | invalidHashLength
  | updateAndRecovery (e : Option String) (er : String)
deriving DecidableEq, Repr

/-- Rendering of `%q` for a (non-nil) error in `fmt.Errorf`. -/
def quoteErr (s : String) : String := "\"" ++ s ++ "\""

/-- Rendering of `%q` for a possibly-nil error (Go prints a nil operand
of `%q` as a verb error). -/
def quoteOptErr : Option String → String
  | some s => quoteErr s
  | none => "%!q(<nil>)"

/-- The `Error()` text of a `GoError`. -/
def errText : GoError → String
  | .errMsg s => s
  | .invalidHashLength => "Invalid hash length"
  | .updateAndRecovery e er =>
      "update and recovery errors: " ++ quoteOptErr e ++ " " ++ quoteOptErr (some er)

/-- Decidable infix test on lists: `listInfixOf needle hay` is true iff
`needle` occurs contiguously inside `hay`. -/
def listInfixOf [DecidableEq α] : List α → List α → Bool
  | needle, [] => needle.isEmpty
  | needle, a :: rest => needle.isPrefixOf (a :: rest) || listInfixOf needle rest

/-- Substring test on strings, used to state "the error text contains
evidence of a failure". -/
def strContains (hay needle : String) : Bool := listInfixOf needle.data hay.data

/-- The environment of one run: the build-time platform constant
`plat = runtime.GOOS + "-" + runtime.GOARCH`, the per-URL outcome of
the effective requester's `Fetch`, and the outcome of go-update's
`up.FromUrl(url)` given the configured patch type and expected
checksum — the pair `(err, errRecover)` it returns. -/
structure World where
  plat : String
  response : String → FetchResult
  fromUrl : PatchType → List Nat → String → Option String × Option String

/-- `sha256.Size`. -/
def sha256Size : Nat := 32

/-- Result of the `fetch` method: updated receiver, trace, and either
an error or a body. -/
structure FetchRes where
  u : Updater
  evs : List Event
  res : Except GoError Body

/-- `func (u *Updater) fetch(url string) (io.ReadCloser, error)`:
installs the default `HTTPRequester` when `u.Requester` is nil, calls
`Fetch`, and converts a `(nil, nil)` result into an explicit error. -/
def fetch (u : Updater) (w : World) (url : String) : FetchRes :=
  let u₁ := if u.Requester = none then { u with Requester := some .HTTPRequester } else u
  match w.response url with
  | .fetchErr m => ⟨u₁, [.fetched url], .error (.errMsg m)⟩
  | .nilStream =>
      ⟨u₁, [.fetched url], .error (.errMsg "Fetch was expected to return non-nil ReadCloser")⟩
  | .stream s => ⟨u₁, [.fetched url], .ok s⟩

/-- Outcome of `json.NewDecoder(r).Decode(&u.Info)` on a body. -/
def jsonDecodeInfo : Body → Except String Info
  | .jsonInfo i => .ok i
  | .malformed m => .error m

/-- The manifest URL built by `fetchInfo`:
`u.ApiURL + u.CmdName + "/" + plat + ".json"`. -/
def infoURL (u : Updater) (plat : String) : String :=
  u.ApiURL ++ u.CmdName ++ "/" ++ plat ++ ".json"

/-- Result of `fetchInfo`: updated receiver, trace, returned error. -/
structure FetchInfoRes where
  u : Updater
  evs : List Event
  err : Option GoError

/-- `func (u *Updater) fetchInfo() error`: fetches the manifest JSON,
decodes it into `u.Info` (mutating the receiver on success), and
rejects a decoded hash whose length differs from `sha256.Size`. -/
def fetchInfo (u : Updater) (w : World) : FetchInfoRes :=
  let r := fetch u w (infoURL u w.plat)
  match r.res with
  | .error e => ⟨r.u, r.evs, some e⟩
  | .ok s =>
    match jsonDecodeInfo s with
    | .error m => ⟨r.u, r.evs, some (.errMsg m)⟩
    | .ok info =>
      let u' := { r.u with Info := info }
      if u'.Info.Sha256.length ≠ sha256Size then ⟨u', r.evs, some .invalidHashLength⟩
      else ⟨u', r.evs, none⟩

/-- Result of `UpdateAvailable`: updated receiver, trace, and the
returned `(bool, error)` pair. -/
structure AvailRes where
  u : Updater
  evs : List Event
  avail : Bool
  err : Option GoError

/-- `func (u *Updater) UpdateAvailable() (bool, error)`. -/
def UpdateAvailable (u : Updater) (w : World) : AvailRes :=
  let f := fetchInfo u w
  match f.err with
  | some e => ⟨f.u, f.evs, false, some e⟩
  | none =>
    if f.u.Info.Version = f.u.CurrentVersion then ⟨f.u, f.evs, false, none⟩
    else ⟨f.u, f.evs, true, none⟩

/-- The patch URL built by `Update` after `UpdateAvailable` has filled
`u.Info`: `u.DiffURL + u.CmdName + "/" + u.CurrentVersion + "/" +
u.Info.Version + "/" + plat`. -/
def mkPatchURL (u : Updater) (plat : String) : String :=
  u.DiffURL ++ u.CmdName ++ "/" ++ u.CurrentVersion ++ "/" ++ u.Info.Version ++ "/" ++ plat

/-- The full-binary URL built by `Update`:
`u.BinURL + u.CmdName + "/" + u.Info.Version + "/" + plat + ".gz"`. -/
def mkBinURL (u : Updater) (plat : String) : String :=
  u.BinURL ++ u.CmdName ++ "/" ++ u.Info.Version ++ "/" ++ plat ++ ".gz"

/-- Result of `Update`: updated receiver, trace, returned error. -/
structure UpdateRes where
  u : Updater
  evs : List Event
  err : Option GoError

/-- `func (u *Updater) Update() error`: checks availability, attempts
the BSDIFF patch, and on patch failure retries with the full binary.
On the fallback, `err, errRecover := up.FromUrl(binURL)` reassigns
`err`, so the original patch error is no longer referenced; the
combined error wraps the fallback attempt's `err` and `errRecover`. -/
def Update (u : Updater) (w : World) : UpdateRes :=
  let a := UpdateAvailable u w
  if a.avail = false then ⟨a.u, a.evs, a.err⟩
  else
    let u' := a.u
    let patchURL := mkPatchURL u' w.plat
    let pr := w.fromUrl .BSDIFF u'.Info.Sha256 patchURL
    let evs₁ := a.evs ++ [.fromUrlReq .BSDIFF patchURL]
    match pr.1 with
    | none => ⟨u', evs₁, none⟩
    | some _ =>
      let binURL := mkBinURL u' w.plat
      let br := w.fromUrl .NONE u'.Info.Sha256 binURL
      let evs₂ := evs₁ ++ [.fromUrlReq .NONE binURL]
      match br.2 with
      | some er => ⟨u', evs₂, some (.updateAndRecovery br.1 er)⟩
      | none =>
        match br.1 with
        | some e => ⟨u', evs₂, some (.errMsg e)⟩
        | none => ⟨u', evs₂, none⟩

/-- Nanoseconds in one hour (`time.Hour`). -/
def nsPerHour : Nat := 3600000000000

/-- Nanoseconds in 24 hours (`24 * time.Hour`). -/
def day : Nat := 24 * nsPerHour

/-- The persisted schedule state: the contents of the `cktime` file
under the state directory, `none` when absent or unreadable. -/
structure SchedState where
  cktime : Option Nat
deriving DecidableEq, Repr

/-- Ambient inputs of one `wantUpdate` call: the current instant
(`time.Now()`), the random source consumed by `randDuration`, and
whether persisting the timestamp will succeed. -/
structure SchedEnv where
  now : Nat
  rand : Nat
  writeOk : Bool
deriving DecidableEq, Repr

/-- Modelled from the spec: the body of `readTime` is not under `src/`
(only its call in `wantUpdate` is).  Per the spec's Schedule Gate
contract it "reads the persisted schedule timestamp"; an absent or
unreadable file reads as the zero instant, which is never after now. -/
def readTime (st : SchedState) : Nat := st.cktime.getD 0

/-- Modelled from the spec: the body of `writeTime` is not under
`src/`.  It persists the given timestamp at the `cktime` path and
reports success; per the spec "a failed write is treated as do not
proceed", so on failure it returns `false` and leaves state as is. -/
def writeTime (st : SchedState) (ok : Bool) (t : Nat) : SchedState × Bool :=
  if ok then ({ cktime := some t }, true) else (st, false)

/-- Modelled from the spec: the body of `randDuration` is not under
`src/`.  Per the spec the jitter is `uniform_random(0, 24h)`, so
`randDuration d r` maps the random source into `[0, d)`. -/
def randDuration (d : Nat) (r : Nat) : Nat := r % d

/-- `func (u *Updater) wantUpdate() bool`: returns false for the "dev"
version or while the persisted timestamp is in the future; otherwise
persists `now + 24h + randDuration(24h)` and returns whether the
write succeeded. -/
def wantUpdate (u : Updater) (env : SchedEnv) (st : SchedState) : SchedState × Bool :=
  if u.CurrentVersion = "dev" ∨ env.now < readTime st then (st, false)
  else
    let wait := day + randDuration day env.rand
    writeTime st env.writeOk (env.now + wait)

/-- Terminal outcome of `BackgroundRun`: a normal return (`ok` for nil,
`err e` for a non-nil error) or a runtime panic from calling `Println`
on a nil `Logger` interface value. -/
inductive RunOutcome where
  | ok
  | err (e : GoError)
  | nilPanic
deriving DecidableEq, Repr

/-- Result of `BackgroundRun`: schedule state, receiver, trace and
outcome. -/
structure RunRes where
  st : SchedState
  u : Updater
  evs : List Event
  outcome : RunOutcome

/-- `func (u *Updater) BackgroundRun() error`: ensures the state
directory exists (no observable in this model), consults `wantUpdate`,
and if a check is due calls `u.Logger.Println` — with no nil check on
`u.Logger` — and then `Update`. -/
def BackgroundRun (u : Updater) (w : World) (env : SchedEnv) (st : SchedState) : RunRes :=
  let r := wantUpdate u env st
  if r.2 then
    match u.Logger with
    | none => ⟨r.1, u, [], .nilPanic⟩
    | some _ =>
      let upd := Update u w
      match upd.err with
      | some e => ⟨r.1, upd.u, upd.evs, .err e⟩
      | none => ⟨r.1, upd.u, upd.evs, .ok⟩
  else ⟨r.1, u, [], .ok⟩

/-- Predicate on events: a full-binary request, i.e. a go-update
`FromUrl` invocation in `PATCHTYPE_NONE` mode. -/
def Event.isFullBinaryReq : Event → Bool
  | .fromUrlReq .NONE _ => true
  | _ => false

/-- The configuration fields of an `Updater` that `UpdateAvailable`
never touches (everything except `Info` and `Requester`). -/
def configEq (a b : Updater) : Prop :=
  a.CurrentVersion = b.CurrentVersion ∧ a.ApiURL = b.ApiURL ∧ a.CmdName = b.CmdName ∧
  a.BinURL = b.BinURL ∧ a.DiffURL = b.DiffURL ∧ a.Dir = b.Dir ∧ a.Logger = b.Logger

/-! Concrete fixtures used by counterexamples and witnesses. -/

/-- A well-formed 32-byte hash. -/
def sha0 : List Nat := List.replicate 32 0

/-- A baseline configuration at version "1". -/
def uEx : Updater :=
  { CurrentVersion := "1", ApiURL := "http://api/", CmdName := "myapp",
    BinURL := "http://bin/", DiffURL := "http://diff/", Dir := "update/",
    Requester := some (.custom "mock"), Info := ⟨"", []⟩, Logger := some () }

/-- A manifest advertising version "2" with a valid hash. -/
def infoEx : Info := ⟨"2", sha0⟩

/-- World: update available; the patch attempt fails with "patch boom"
and the full-binary attempt fails with "bin boom" (recovery fine). -/
def wBothFail : World :=
  { plat := "linux-amd64"
  , response := fun _ => .stream (.jsonInfo infoEx)
  , fromUrl := fun pt _ _ =>
      match pt with
      | .BSDIFF => (some "patch boom", none)
      | .NONE => (some "bin boom", none) }

/-- World: update available; the patch attempt succeeds. -/
def wPatchOk : World :=
  { plat := "linux-amd64"
  , response := fun _ => .stream (.jsonInfo infoEx)
  , fromUrl := fun _ _ _ => (none, none) }

/-- World: the manifest reports the currently running version. -/
def wUpToDate : World :=
  { plat := "linux-amd64"
  , response := fun _ => .stream (.jsonInfo ⟨"1", sha0⟩)
  , fromUrl := fun _ _ _ => (none, none) }

/-- World: the manifest fetch fails. -/
def wFetchErr : World :=
  { plat := "linux-amd64"
  , response := fun _ => .fetchErr "boom"
  , fromUrl := fun _ _ _ => (none, none) }

/-- World: the manifest decodes but carries a 3-byte hash. -/
def wBadHash : World :=
  { plat := "linux-amd64"
  , response := fun _ => .stream (.jsonInfo ⟨"2", [1, 2, 3]⟩)
  , fromUrl := fun _ _ _ => (none, none) }

/-! Helper lemmas about the embedded operations. -/

/-- `fetch` performs exactly one `Fetch` call. -/
theorem fetch_evs (u : Updater) (w : World) (url : String) :
    (fetch u w url).evs = [.fetched url] := by
  unfold fetch
  rcases h : w.response url <;> simp [h]

/-- `fetchInfo` performs exactly one `Fetch` call, on the manifest URL. -/
theorem fetchInfo_evs (u : Updater) (w : World) :
    (fetchInfo u w).evs = [.fetched (infoURL u w.plat)] := by
  unfold fetchInfo
  have h := fetch_evs u w (infoURL u w.plat)
  rcases hr : (fetch u w (infoURL u w.plat)).res with e | s
  · simpa [hr] using h
  · rcases s with i | m
    · simp_all [jsonDecodeInfo]
      split <;> rfl
    · simp_all [jsonDecodeInfo]

/-- `UpdateAvailable` leaves the receiver exactly as `fetchInfo` did. -/
theorem UpdateAvailable_u (u : Updater) (w : World) :
    (UpdateAvailable u w).u = (fetchInfo u w).u := by
  unfold UpdateAvailable
  rcases h : (fetchInfo u w).err <;> simp [h]
  split <;> rfl

/-- `UpdateAvailable` performs exactly the one manifest fetch. -/
theorem UpdateAvailable_evs (u : Updater) (w : World) :
    (UpdateAvailable u w).evs = [.fetched (infoURL u w.plat)] := by
  unfold UpdateAvailable
  have h := fetchInfo_evs u w
  rcases he : (fetchInfo u w).err <;> simp [he] at h ⊢ <;> simp [h]
  split <;> simp [h]

/-- `fetch` changes nothing in the receiver but possibly `Requester`. -/
theorem fetch_config (u : Updater) (w : World) (url : String) :
    configEq (fetch u w url).u u := by
  unfold fetch configEq
  rcases h : w.response url <;>
    by_cases hr : u.Requester = none <;> simp [h, hr]

/-- `fetchInfo` changes nothing in the receiver but `Info` and
(possibly) `Requester`. -/
theorem fetchInfo_config (u : Updater) (w : World) :
    configEq (fetchInfo u w).u u := by
  unfold fetchInfo
  have h := fetch_config u w (infoURL u w.plat)
  rcases hr : (fetch u w (infoURL u w.plat)).res with e | s
  · simpa [hr] using h
  · rcases s with i | m
    · simp_all [jsonDecodeInfo, configEq]
      split <;> simp_all
    · simp_all [jsonDecodeInfo, configEq]

/-- `fetchInfo` on a good manifest: no error, `Info` filled. -/
theorem fetchInfo_ok (u : Updater) (w : World) (info : Info)
    (h : w.response (infoURL u w.plat) = .stream (.jsonInfo info))
    (h32 : info.Sha256.length = sha256Size) :
    (fetchInfo u w).err = none ∧ (fetchInfo u w).u.Info = info := by
  unfold fetchInfo fetch
  simp [h, jsonDecodeInfo, h32]

/-- `fetchInfo` on a manifest with a wrong-length hash returns
`ErrInvalidHashLength`. -/
theorem fetchInfo_badlen (u : Updater) (w : World) (info : Info)
    (h : w.response (infoURL u w.plat) = .stream (.jsonInfo info))
    (hlen : info.Sha256.length ≠ sha256Size) :
    (fetchInfo u w).err = some .invalidHashLength := by
  unfold fetchInfo fetch
  simp [h, jsonDecodeInfo, hlen]

/-- `UpdateAvailable` propagates a `fetchInfo` error as `(false, err)`. -/
theorem UpdateAvailable_of_err (u : Updater) (w : World) (e : GoError)
    (h : (fetchInfo u w).err = some e) :
    (UpdateAvailable u w).avail = false ∧ (UpdateAvailable u w).err = some e := by
  unfold UpdateAvailable
  simp [h]

/-- Claim C5: `UpdateAvailable()` returns `(false, err)` with a non-nil
`err` when the manifest fetch/decode fails, `(false, nil)` when the
manifest version equals the current version, and `(true, nil)`
otherwise. -/
theorem C5_updateAvailable_cases (u : Updater) (w : World) :
    (∀ e, (fetchInfo u w).err = some e →
      (UpdateAvailable u w).avail = false ∧ (UpdateAvailable u w).err = some e)
    ∧ ((fetchInfo u w).err = none →
        (fetchInfo u w).u.Info.Version = u.CurrentVersion →
      (UpdateAvailable u w).avail = false ∧ (UpdateAvailable u w).err = none)
    ∧ ((fetchInfo u w).err = none →
        (fetchInfo u w).u.Info.Version ≠ u.CurrentVersion →
      (UpdateAvailable u w).avail = true ∧ (UpdateAvailable u w).err = none) := by
  have hc := (fetchInfo_config u w).1
  refine ⟨fun e he => ?_, fun he hv => ?_, fun he hv => ?_⟩
  · unfold UpdateAvailable
    simp [he]
  · unfold UpdateAvailable
    simp [he, hc, hv]
  · unfold UpdateAvailable
    simp [he, hc, hv]

/-- Claim C4: when the fetched manifest version equals the current
version, `UpdateAvailable()` returns `(false, nil)` and `Update()`
returns nil having performed only the manifest fetch — no patch or
binary request ever occurs (a no-op success). -/
theorem C4_up_to_date_noop (u : Updater) (w : World) (info : Info)
    (h : w.response (infoURL u w.plat) = .stream (.jsonInfo info))
    (h32 : info.Sha256.length = sha256Size)
    (hver : info.Version = u.CurrentVersion) :
    ((UpdateAvailable u w).avail = false ∧ (UpdateAvailable u w).err = none)
    ∧ (Update u w).err = none
    ∧ (Update u w).evs = [.fetched (infoURL u w.plat)] := by
  obtain ⟨he, hi⟩ := fetchInfo_ok u w info h h32
  have hc := (fetchInfo_config u w).1
  have hA : (UpdateAvailable u w).avail = false ∧ (UpdateAvailable u w).err = none := by
    unfold UpdateAvailable
    simp [he, hi, hc, hver]
  refine ⟨hA, ?_, ?_⟩ <;> unfold Update <;>
    simp [hA.1, hA.2, UpdateAvailable_evs]

/-- Claim C6: a manifest whose decoded hash is not 32 bytes long makes
`fetchInfo` return `ErrInvalidHashLength`, and in that check no patch
or full-binary URL is ever requested: `Update` surfaces the error with
only the manifest fetch in its trace. -/
theorem C6_invalid_hash_length (u : Updater) (w : World) (info : Info)
    (h : w.response (infoURL u w.plat) = .stream (.jsonInfo info))
    (hlen : info.Sha256.length ≠ sha256Size) :
    (fetchInfo u w).err = some .invalidHashLength
    ∧ (Update u w).err = some .invalidHashLength
    ∧ (Update u w).evs = [.fetched (infoURL u w.plat)] := by
  have he := fetchInfo_badlen u w info h hlen
  have hA := UpdateAvailable_of_err u w _ he
  refine ⟨he, ?_, ?_⟩ <;> unfold Update <;>
    simp [hA.1, hA.2, UpdateAvailable_evs]

/-- `fetchInfo` leaves the `Requester` field alone or installs the
default `HTTPRequester` (like `fetch`). -/
theorem fetchInfo_requester_eq (u : Updater) (w : World) :
    (fetchInfo u w).u.Requester = (fetch u w (infoURL u w.plat)).u.Requester := by
  unfold fetchInfo
  rcases hr : (fetch u w (infoURL u w.plat)).res with e | s
  · simp [hr]
  · rcases s with i | m
    · simp only [hr, jsonDecodeInfo]
      split <;> rfl
    · simp [hr, jsonDecodeInfo]

/-- `fetch` either keeps `Requester` or installs the default. -/
theorem fetch_requester (u : Updater) (w : World) (url : String) :
    (fetch u w url).u.Requester = u.Requester
    ∨ (fetch u w url).u.Requester = some .HTTPRequester := by
  unfold fetch
  rcases h : w.response url <;> by_cases hr : u.Requester = none <;> simp [h, hr]

/-- Claim C9 (amended): `UpdateAvailable()` performs exactly the one
manifest fetch, and its only receiver mutations are recording the
decoded manifest in `Info` and installing the default `HTTPRequester`
when `Requester` was nil; every other `Updater` field is unchanged. -/
theorem C9_frame (u : Updater) (w : World) :
    configEq (UpdateAvailable u w).u u
    ∧ (UpdateAvailable u w).evs = [.fetched (infoURL u w.plat)]
    ∧ ((UpdateAvailable u w).u.Requester = u.Requester
       ∨ (UpdateAvailable u w).u.Requester = some .HTTPRequester) := by
  refine ⟨?_, UpdateAvailable_evs u w, ?_⟩
  · rw [UpdateAvailable_u]
    exact fetchInfo_config u w
  · rw [UpdateAvailable_u, fetchInfo_requester_eq]
    exact fetch_requester u w (infoURL u w.plat)

/-- Claim C9 counterexample: `UpdateAvailable` does not leave the
`Updater` unchanged — on a successful check it overwrites `u.Info`
with the fetched manifest. -/
theorem C9_counterexample : (UpdateAvailable uEx wBothFail).u ≠ uEx := by
  decide

/-- Claim C3: when an update is available and the patch attempt
succeeds (go-update's `FromUrl` on the patch URL returns a nil error,
i.e. the patch applied and the candidate hash matched), `Update()`
returns nil; the trace is the manifest fetch plus the single BSDIFF
request, and no full-binary (`PATCHTYPE_NONE`) request ever occurs. -/
theorem C3_patch_success_no_fallback (u : Updater) (w : World)
    (hA : (UpdateAvailable u w).avail = true)
    (hp : (w.fromUrl .BSDIFF (UpdateAvailable u w).u.Info.Sha256
            (mkPatchURL (UpdateAvailable u w).u w.plat)).1 = none) :
    (Update u w).err = none
    ∧ (Update u w).evs
        = [.fetched (infoURL u w.plat),
           .fromUrlReq .BSDIFF (mkPatchURL (UpdateAvailable u w).u w.plat)]
    ∧ (Update u w).evs.filter Event.isFullBinaryReq = [] := by
  have hevs := UpdateAvailable_evs u w
  unfold Update
  simp [hA, hp, hevs, Event.isFullBinaryReq]

/-- Claim C2: when an update is available and the patch attempt fails
for any reason, `Update()` makes exactly one full-binary request, and
its URL is `BinURL ++ CmdName ++ "/" ++ targetVersion ++ "/" ++ plat
++ ".gz"` where `targetVersion` is the fetched manifest version. -/
theorem C2_fullbinary_once (u : Updater) (w : World) (p : String)
    (hA : (UpdateAvailable u w).avail = true)
    (hp : (w.fromUrl .BSDIFF (UpdateAvailable u w).u.Info.Sha256
            (mkPatchURL (UpdateAvailable u w).u w.plat)).1 = some p) :
    (Update u w).evs.filter Event.isFullBinaryReq
      = [.fromUrlReq .NONE (mkBinURL (UpdateAvailable u w).u w.plat)]
    ∧ mkBinURL (UpdateAvailable u w).u w.plat
      = u.BinURL ++ u.CmdName ++ "/" ++ (UpdateAvailable u w).u.Info.Version
        ++ "/" ++ w.plat ++ ".gz" := by
  constructor
  · have hevs := UpdateAvailable_evs u w
    unfold Update
    rcases hbr : w.fromUrl .NONE (UpdateAvailable u w).u.Info.Sha256
        (mkBinURL (UpdateAvailable u w).u w.plat) with ⟨be, brec⟩
    rcases brec with _ | er <;> rcases be with _ | e <;>
      simp [hA, hp, hbr, hevs, Event.isFullBinaryReq]
  · obtain ⟨h1, h2, h3, h4, h5, h6, h7⟩ := fetchInfo_config u w
    unfold mkBinURL
    rw [UpdateAvailable_u, h4, h3]

/-- Claim C1 (amended): when an update is available, the patch attempt
fails, and the full-binary fallback's `FromUrl` also fails (its `err`
is non-nil), `Update()` returns an error built from the fallback
attempt alone — `err` itself when the fallback's recovery error is
nil, or `fmt.Errorf("update and recovery errors: %q %q", err,
errRecover)` combining the fallback error with the fallback's recovery
error.  The original patch failure is discarded: `err, errRecover :=
up.FromUrl(binURL)` reassigns `err`, so the returned error does not
depend on the patch error `p`. -/
theorem C1_fallback_error_only (u : Updater) (w : World) (p be : String)
    (brec : Option String)
    (hA : (UpdateAvailable u w).avail = true)
    (hp : (w.fromUrl .BSDIFF (UpdateAvailable u w).u.Info.Sha256
            (mkPatchURL (UpdateAvailable u w).u w.plat)).1 = some p)
    (hb : w.fromUrl .NONE (UpdateAvailable u w).u.Info.Sha256
            (mkBinURL (UpdateAvailable u w).u w.plat) = (some be, brec)) :
    (Update u w).err = some (match brec with
      | some er => GoError.updateAndRecovery (some be) er
      | none => GoError.errMsg be) := by
  unfold Update
  rcases brec with _ | er <;> simp [hA, hp, hb]

/-- Claim C1 counterexample: with the manifest advertising version "2",
the patch attempt failing with "patch boom" and the full-binary
attempt failing with "bin boom" (recovery nil), `Update()` returns
only the fallback error; its text contains no evidence of the patch
failure, contradicting the claim that both failures are reported. -/
theorem C1_counterexample :
    (wBothFail.fromUrl .BSDIFF (UpdateAvailable uEx wBothFail).u.Info.Sha256
        (mkPatchURL (UpdateAvailable uEx wBothFail).u wBothFail.plat)).1 = some "patch boom"
    ∧ (wBothFail.fromUrl .NONE (UpdateAvailable uEx wBothFail).u.Info.Sha256
        (mkBinURL (UpdateAvailable uEx wBothFail).u wBothFail.plat)).1 = some "bin boom"
    ∧ (Update uEx wBothFail).err = some (.errMsg "bin boom")
    ∧ strContains (errText (GoError.errMsg "bin boom")) "patch boom" = false := by
  decide

/-- `wantUpdate` past both guards reduces to the `writeTime` call. -/
theorem wantUpdate_due (u : Updater) (env : SchedEnv) (st : SchedState)
    (hdev : u.CurrentVersion ≠ "dev") (hdue : readTime st ≤ env.now) :
    wantUpdate u env st
      = writeTime st env.writeOk (env.now + (day + randDuration day env.rand)) := by
  unfold wantUpdate
  simp [hdev, Nat.not_lt.mpr hdue]

/-- `wantUpdate` past both guards, with a succeeding write: persists
`now + 24h + jitter` and returns true. -/
theorem wantUpdate_due_true (u : Updater) (env : SchedEnv) (st : SchedState)
    (hdev : u.CurrentVersion ≠ "dev") (hdue : readTime st ≤ env.now)
    (hw : env.writeOk = true) :
    wantUpdate u env st
      = (⟨some (env.now + (day + randDuration day env.rand))⟩, true) := by
  rw [wantUpdate_due u env st hdev hdue]
  unfold writeTime
  rw [hw]
  simp

/-- Claim C7 (amended): the schedule timestamp file is created or
overwritten on every check attempt that proceeds past both the "dev"
guard and the not-yet-due guard — i.e. whenever the current version is
not "dev" and the persisted timestamp is not in the future — provided
the write itself succeeds; `wantUpdate` then persists
`now + 24h + randDuration(24h)` and returns true. -/
theorem C7_overwrite_when_due (u : Updater) (env : SchedEnv) (st : SchedState)
    (hdev : u.CurrentVersion ≠ "dev") (hdue : readTime st ≤ env.now)
    (hw : env.writeOk = true) :
    wantUpdate u env st
      = (⟨some (env.now + (day + randDuration day env.rand))⟩, true) :=
  wantUpdate_due_true u env st hdev hdue hw

/-- Claim C7 counterexample: with a non-"dev" version ("1") and a
persisted timestamp (20) still in the future of now (10), the check
proceeds past the dev guard yet `wantUpdate` returns false and leaves
the timestamp file untouched — it is not overwritten on every attempt
past the dev guard. -/
theorem C7_counterexample :
    uEx.CurrentVersion ≠ "dev"
    ∧ wantUpdate uEx ⟨10, 0, true⟩ ⟨some 20⟩ = (⟨some 20⟩, false) := by
  decide

/-- Claim C8: calling the schedule gate twice in immediate succession
with a non-"dev" version and an initially non-future persisted
timestamp (and a succeeding write): the first call returns true and
persists `now + 24h + r` with jitter `r = randDuration 24h ∈ [0, 24h)`,
a strictly future instant; the second call, made before that
timestamp elapses, returns false. -/
theorem C8_schedule_gate_twice (u : Updater) (env1 env2 : SchedEnv) (st : SchedState)
    (hdev : u.CurrentVersion ≠ "dev") (hdue : readTime st ≤ env1.now)
    (hw : env1.writeOk = true)
    (h2 : env2.now < env1.now + (day + randDuration day env1.rand)) :
    (wantUpdate u env1 st).2 = true
    ∧ (wantUpdate u env1 st).1.cktime
        = some (env1.now + (day + randDuration day env1.rand))
    ∧ env1.now < env1.now + (day + randDuration day env1.rand)
    ∧ randDuration day env1.rand < day
    ∧ (wantUpdate u env2 (wantUpdate u env1 st).1).2 = false := by
  have hday : 0 < day := by norm_num [day, nsPerHour]
  have h1 := wantUpdate_due_true u env1 st hdev hdue hw
  refine ⟨by rw [h1], by rw [h1], ?_, Nat.mod_lt _ hday, ?_⟩
  · have hj : randDuration day env1.rand < day := Nat.mod_lt _ hday
    omega
  · rw [h1]
    unfold wantUpdate
    simp [readTime, h2]

/-- Claim C10: if `u.Logger` is nil and the schedule gate decides a
check is due, `BackgroundRun` calls `Println` on the nil `Logger`
interface with no nil check, so it ends in a nil-dereference panic; a
non-nil `Logger` is an unstated precondition whenever a check is due. -/
theorem C10_nil_logger_panics (u : Updater) (w : World) (env : SchedEnv)
    (st : SchedState)
    (hL : u.Logger = none) (hwant : (wantUpdate u env st).2 = true) :
    (BackgroundRun u w env st).outcome = .nilPanic := by
  unfold BackgroundRun
  simp [hL, hwant]

/-! Witnesses: each hypothesised claim theorem instantiated at a
concrete configuration with the hypotheses discharged by evaluation. -/

/-- A configuration with a nil `Logger`, for the C10 witness. -/
def uNoLog : Updater := { uEx with Logger := none }

/-- Witness for C1: both attempts fail in `wBothFail`; the returned
error is the fallback's `errMsg "bin boom"`. -/
theorem C1_witness : (Update uEx wBothFail).err = some (.errMsg "bin boom") :=
  C1_fallback_error_only uEx wBothFail "patch boom" "bin boom" none
    (by decide) (by decide) (by decide)

/-- Witness for C2 at the `wBothFail` fixture. -/
theorem C2_witness :
    (Update uEx wBothFail).evs.filter Event.isFullBinaryReq
      = [.fromUrlReq .NONE (mkBinURL (UpdateAvailable uEx wBothFail).u wBothFail.plat)]
    ∧ mkBinURL (UpdateAvailable uEx wBothFail).u wBothFail.plat
      = uEx.BinURL ++ uEx.CmdName ++ "/"
        ++ (UpdateAvailable uEx wBothFail).u.Info.Version
        ++ "/" ++ wBothFail.plat ++ ".gz" :=
  C2_fullbinary_once uEx wBothFail "patch boom" (by decide) (by decide)

/-- Witness for C3 at the `wPatchOk` fixture. -/
theorem C3_witness :
    (Update uEx wPatchOk).err = none
    ∧ (Update uEx wPatchOk).evs
        = [.fetched (infoURL uEx wPatchOk.plat),
           .fromUrlReq .BSDIFF (mkPatchURL (UpdateAvailable uEx wPatchOk).u wPatchOk.plat)]
    ∧ (Update uEx wPatchOk).evs.filter Event.isFullBinaryReq = [] :=
  C3_patch_success_no_fallback uEx wPatchOk (by decide) (by decide)

/-- Witness for C4 at the `wUpToDate` fixture. -/
theorem C4_witness :
    ((UpdateAvailable uEx wUpToDate).avail = false
      ∧ (UpdateAvailable uEx wUpToDate).err = none)
    ∧ (Update uEx wUpToDate).err = none
    ∧ (Update uEx wUpToDate).evs = [.fetched (infoURL uEx wUpToDate.plat)] :=
  C4_up_to_date_noop uEx wUpToDate ⟨"1", sha0⟩ (by decide) (by decide) (by decide)

/-- Witness for C5: all three cases at concrete fixtures. -/
theorem C5_witness :
    ((UpdateAvailable uEx wFetchErr).avail = false
      ∧ (UpdateAvailable uEx wFetchErr).err = some (.errMsg "boom"))
    ∧ ((UpdateAvailable uEx wUpToDate).avail = false
      ∧ (UpdateAvailable uEx wUpToDate).err = none)
    ∧ ((UpdateAvailable uEx wBothFail).avail = true
      ∧ (UpdateAvailable uEx wBothFail).err = none) :=
  ⟨(C5_updateAvailable_cases uEx wFetchErr).1 (.errMsg "boom") (by decide),
   (C5_updateAvailable_cases uEx wUpToDate).2.1 (by decide) (by decide),
   (C5_updateAvailable_cases uEx wBothFail).2.2 (by decide) (by decide)⟩

/-- Witness for C6 at the `wBadHash` fixture. -/
theorem C6_witness :
    (fetchInfo uEx wBadHash).err = some .invalidHashLength
    ∧ (Update uEx wBadHash).err = some .invalidHashLength
    ∧ (Update uEx wBadHash).evs = [.fetched (infoURL uEx wBadHash.plat)] :=
  C6_invalid_hash_length uEx wBadHash ⟨"2", [1, 2, 3]⟩ (by decide) (by decide)

/-- Witness for C7 (amended): due check with a succeeding write. -/
theorem C7_witness :
    wantUpdate uEx ⟨10, 5, true⟩ ⟨none⟩
      = (⟨some (10 + (day + randDuration day 5))⟩, true) :=
  C7_overwrite_when_due uEx ⟨10, 5, true⟩ ⟨none⟩ (by decide) (by decide) rfl

/-- Witness for C8: two successive gate calls at concrete instants. -/
theorem C8_witness :
    (wantUpdate uEx ⟨10, 5, true⟩ ⟨none⟩).2 = true
    ∧ (wantUpdate uEx ⟨10, 5, true⟩ ⟨none⟩).1.cktime
        = some (10 + (day + randDuration day 5))
    ∧ 10 < 10 + (day + randDuration day 5)
    ∧ randDuration day 5 < day
    ∧ (wantUpdate uEx ⟨100, 0, true⟩ (wantUpdate uEx ⟨10, 5, true⟩ ⟨none⟩).1).2 = false :=
  C8_schedule_gate_twice uEx ⟨10, 5, true⟩ ⟨100, 0, true⟩ ⟨none⟩
    (by decide) (by decide) rfl (by decide)

/-- Witness for C10: nil logger, check due. -/
theorem C10_witness :
    (BackgroundRun uNoLog wBothFail ⟨10, 0, true⟩ ⟨none⟩).outcome = .nilPanic :=
  C10_nil_logger_panics uNoLog wBothFail ⟨10, 0, true⟩ ⟨none⟩ rfl (by decide)

end Selfupdate
